import Mathlib

/-!
Shallow embedding of the quiz-administration test-attempt flow.

The repository contains several parallel implementations of the
login / attempt / scoring flow.  Each is embedded separately and kept
faithful to its own source file:

* `TestLogin.tsx`  — login page (fetchTestInfo + handleSubmit), prefix `testLogin`.
* `[id].tsx`       — login page (verifyTest + handleSubmit), prefix `idPage`.
* `unnamed/part_000` — attempt page (verifySession, fetchTest, timer,
  navigation, handleSubmit/scorer), prefix `part000`.
* `unnamed/part_001` — attempt page (fetchTest with no session check,
  timer, navigation, handleSubmit/scorer), prefix `part001`.

The hosted data store is modelled as explicit lists of rows; timestamps
are integers; the supabase `.single()` call (exactly one row, otherwise
an error) is modelled by pattern matching on the filtered row list.
-/

/-- A question row as selected from `test_questions`: option texts and
the index of the correct option. -/
structure Question where
  id : Nat
  text : String
  options : List String
  correct_answer : Nat
  deriving DecidableEq

/-- A row of the `students` table. -/
structure StudentRow where
  id : Nat
  name : String
  email : String
  password : String
  has_taken_test : Bool
  batch_id : Nat
  deriving DecidableEq

/-- A row of the `tests` table.  `start_time` and `end_time` are optional. -/
structure TestRow where
  id : Nat
  title : String
  duration_minutes : Nat
  is_active : Bool
  start_time : Option Int
  end_time : Option Int
  batch_id : Nat
  deriving DecidableEq

/-- A row of the `test_sessions` table. -/
structure SessionRow where
  id : Nat
  test_id : Nat
  student_id : Nat
  started_at : Int
  completed_at : Option Int
  total_score : Option Nat
  total_questions : Option Nat
  deriving DecidableEq

/-- The hosted relational store, with the id the store would assign to
the next inserted `test_sessions` row. -/
structure DataStore where
  tests : List TestRow
  students : List StudentRow
  sessions : List SessionRow
  nextSessionId : Nat
  deriving DecidableEq

/-- Accumulator loop of the score computation in `handleSubmit`
(part_000 lines 205-208, part_001 lines 132-135):
`questions.reduce((total, question, index) => total + (answers[index] === question.correct_answer ? 1 : 0), 0)`.
An index with no recorded answer reads as the sentinel `-1`
(part_001 initialises the vector with `-1`; in part_000 the slot reads
as `undefined`, which likewise equals no correct-answer index). -/
def scoreAux (answers : List Int) : List Question → Nat → Nat → Nat
  | [], _, total => total
  | q :: rest, i, total =>
      scoreAux answers rest (i + 1)
        (total + if answers.getD i (-1) = (q.correct_answer : Int) then 1 else 0)

/-- Score computed by the Scorer in `handleSubmit`. -/
def computeScore (test_questions : List Question) (answers : List Int) : Nat :=
  scoreAux answers test_questions 0 0

theorem scoreAux_eq_countP (answers : List Int) (qs : List Question) :
    ∀ (i total : Nat),
      scoreAux answers qs i total
        = total + (qs.enumFrom i).countP
            (fun p => decide (answers.getD p.1 (-1) = (p.2.correct_answer : Int))) := by
  induction qs with
  | nil => intro i total; simp [scoreAux]
  | cons q rest ih =>
      intro i total
      rw [scoreAux, ih]
      simp only [List.enumFrom_cons, List.countP_cons]
      by_cases h : answers.getD i (-1) = (q.correct_answer : Int) <;>
        simp [h] <;> omega

/-- Outcome of a Session Negotiator run, per the error taxonomy the
rejection toasts correspond to. Query failures that the components
surface only through their generic catch block are `errStore`. -/
inductive LoginResult where
  | ok (sessionId : Nat)
  | errNotFound
  | errInactive
  | errNotStarted
  | errEnded
  | errInvalidCredentials
  | errAlreadyTaken
  | errStore
  deriving DecidableEq

/-- The truth of `data.start_time && new Date(data.start_time) > now`
([id].tsx line 61, part_000 line 131): an absent bound reads falsy. -/
def startNotReached (t : TestRow) (now : Int) : Bool :=
  match t.start_time with
  | some s => decide (s > now)
  | none => false

/-- The truth of `data.end_time && new Date(data.end_time) < now`
([id].tsx line 71, part_000 line 141): an absent bound reads falsy. -/
def endPassed (t : TestRow) (now : Int) : Bool :=
  match t.end_time with
  | some e => decide (e < now)
  | none => false

/-- Time-window logic of `verifyTest` in [id].tsx (lines 59-79) and of
`fetchTest` in part_000 (lines 129-149): each bound is guarded and
checked independently of the other. -/
def verifyTestTimeCheck (t : TestRow) (now : Int) : Option LoginResult :=
  if startNotReached t now then some .errNotStarted
  else if endPassed t now then some .errEnded
  else none

/-- Time-window logic of `fetchTestInfo` in TestLogin.tsx (lines 88-113):
the window is checked only when BOTH bounds are present
(`if (test.start_time && test.end_time)`). -/
def fetchTestInfoTimeCheck (t : TestRow) (now : Int) : Option LoginResult :=
  match t.start_time, t.end_time with
  | some s, some e =>
      if now < s then some .errNotStarted
      else if now > e then some .errEnded
      else none
  | _, _ => none

/-- Mount-time check `verifyTest` of [id].tsx (lines 28-84): fetch the
test by id with `.single()`, reject when missing, inactive, or outside
the (independently checked) time bounds.  `none` means the check passed. -/
def idPageVerifyTest (db : DataStore) (now : Int) (testId : Nat) : Option LoginResult :=
  match db.tests.filter (fun t => t.id == testId) with
  | [t] =>
      if t.is_active then verifyTestTimeCheck t now
      else some .errInactive
  | _ => some .errNotFound

/-- Mount-time check `fetchTestInfo` of TestLogin.tsx (lines 49-130):
fetch the test by id, reject when missing, inactive, or outside the
time window (applied only when both bounds are set). -/
def testLoginFetchTestInfo (db : DataStore) (now : Int) (testId : Nat) : Option LoginResult :=
  match db.tests.filter (fun t => t.id == testId) with
  | [t] =>
      if t.is_active then fetchTestInfoTimeCheck t now
      else some .errInactive
  | _ => some .errNotFound

/-- Insertion of a new `test_sessions` row with `started_at = now` and a
store-generated id. -/
def insertSession (db : DataStore) (now : Int) (testId studentId : Nat) : Nat × DataStore :=
  let newRow : SessionRow :=
    { id := db.nextSessionId, test_id := testId, student_id := studentId,
      started_at := now, completed_at := none,
      total_score := none, total_questions := none }
  (newRow.id,
   { db with sessions := db.sessions ++ [newRow],
             nextSessionId := db.nextSessionId + 1 })

/-- `handleSubmit` of [id].tsx (lines 86-160): look up the student by
exact (email, password), reject when `has_taken_test` is set, reuse an
existing open session for (test_id, student_id, completed_at null) or
insert a new one.  A `.single()` student lookup that matches no row (or
more than one) surfaces as the "Invalid email or password" toast. -/
def idPageHandleSubmit (db : DataStore) (now : Int) (testId : Nat)
    (email password : String) : LoginResult × DataStore :=
  match db.students.filter (fun s => s.email == email && s.password == password) with
  | [student] =>
      if student.has_taken_test then (.errAlreadyTaken, db)
      else
        match db.sessions.filter (fun ss =>
            ss.test_id == testId && ss.student_id == student.id && ss.completed_at.isNone) with
        | [] =>
            let inserted := insertSession db now testId student.id
            (.ok inserted.1, inserted.2)
        | [existing] => (.ok existing.id, db)
        | _ => (.errStore, db)
  | _ => (.errInvalidCredentials, db)

/-- `handleSubmit` of TestLogin.tsx (lines 132-237): re-fetch the test
and reject when inactive; look up the student by exact credentials; the
`has_taken_test` flag is NOT consulted; any existing `test_sessions`
row for (test_id, student_id) — open or completed — is treated as
"already taken"; otherwise a new session is inserted. -/
def testLoginHandleSubmit (db : DataStore) (now : Int) (testId : Nat)
    (email password : String) : LoginResult × DataStore :=
  match db.tests.filter (fun t => t.id == testId) with
  | [t] =>
      if t.is_active then
        match db.students.filter (fun s => s.email == email && s.password == password) with
        | [student] =>
            match db.sessions.filter (fun ss =>
                ss.test_id == testId && ss.student_id == student.id) with
            | [] =>
                let inserted := insertSession db now testId student.id
                (.ok inserted.1, inserted.2)
            | [_] => (.errAlreadyTaken, db)
            | _ => (.errStore, db)
        | _ => (.errInvalidCredentials, db)
      else (.errInactive, db)
  | _ => (.errStore, db)

/-- The [id].tsx Session Negotiator as the sequential composition the
page performs: the mount-time `verifyTest` check (which navigates away
on failure) followed by the submit handler. -/
def idPageNegotiator (db : DataStore) (now : Int) (testId : Nat)
    (email password : String) : LoginResult × DataStore :=
  match idPageVerifyTest db now testId with
  | some e => (e, db)
  | none => idPageHandleSubmit db now testId email password

/-- The TestLogin.tsx Session Negotiator: the mount-time
`fetchTestInfo` check followed by the submit handler. -/
def testLoginNegotiator (db : DataStore) (now : Int) (testId : Nat)
    (email password : String) : LoginResult × DataStore :=
  match testLoginFetchTestInfo db now testId with
  | some e => (e, db)
  | none => testLoginHandleSubmit db now testId email password

/-- Persistence step of `handleSubmit` in part_000 (lines 205-254): the
`test_sessions` update is keyed by the stored session id
(`.eq("id", sessionId)`) and the `students` update by the stored
student id (`.eq("id", studentId)`). -/
def part000SubmitScore (db : DataStore) (now : Int) (sessionId studentId : Nat)
    (qs : List Question) (answers : List Int) : DataStore :=
  let score := computeScore qs answers
  let db1 := { db with
    sessions := db.sessions.map (fun s : SessionRow =>
      if s.id == sessionId then
        { s with completed_at := some now, total_score := some score,
                 total_questions := some qs.length }
      else s) }
  { db1 with
    students := db1.students.map (fun st : StudentRow =>
      if st.id == studentId then { st with has_taken_test := true } else st) }

/-- Persistence step of `handleSubmit` in part_001 (lines 127-173): the
`test_sessions` update is keyed by `.eq("test_id", testId)` and the
`students` update by `.eq("id", testId)` — both keyed off the test id. -/
def part001SubmitScore (db : DataStore) (now : Int) (testId : Nat)
    (qs : List Question) (answers : List Int) : DataStore :=
  let score := computeScore qs answers
  let db1 := { db with
    sessions := db.sessions.map (fun s : SessionRow =>
      if s.test_id == testId then
        { s with completed_at := some now, total_score := some score,
                 total_questions := some qs.length }
      else s) }
  { db1 with
    students := db1.students.map (fun st : StudentRow =>
      if st.id == testId then { st with has_taken_test := true } else st) }

/-- The four client-side sessionStorage fields. -/
structure StoredRef where
  sessionId : Option Nat
  studentId : Option Nat
  studentName : Option String
  testId : Option Nat
  deriving DecidableEq

/-- Outcome of the part_000 attempt-page entry check: proceed to load
content, redirect to login keeping the stored fields, or redirect after
clearing them. -/
inductive VerifyOutcome where
  | proceed (sessionId : Nat)
  | redirectKeep
  | redirectClear
  deriving DecidableEq

/-- `verifySession` of part_000 (lines 40-91): a missing sessionId or
studentId, or a stored testId different from the URL's, redirects
WITHOUT removing the stored fields; otherwise the `test_sessions` row
matching id, student_id and test_id with `completed_at` null is fetched
with `.single()`, and failure clears all four fields and redirects. -/
def part000VerifySession (stored : StoredRef) (urlTestId : Nat) (db : DataStore) :
    VerifyOutcome :=
  match stored.sessionId, stored.studentId with
  | some sid, some stId =>
      if stored.testId ≠ some urlTestId then .redirectKeep
      else
        match db.sessions.filter (fun s =>
            s.id == sid && s.student_id == stId && s.test_id == urlTestId
              && s.completed_at.isNone) with
        | [_] => .proceed sid
        | _ => .redirectClear
  | _, _ => .redirectKeep

/-- `fetchTest` of part_001 (lines 72-119): the test (with its
questions) is fetched by test id alone; no stored reference and no
`test_sessions` row is consulted before loading the content. -/
def part001FetchTest (db : DataStore) (testId : Nat) : Option TestRow :=
  match db.tests.filter (fun t => t.id == testId) with
  | [t] => some t
  | _ => none

/-- Abstraction of the part_000 attempt page around submission: the
remaining seconds, whether the one-second interval is still scheduled,
the `submitting` flag (true while a submission is in flight), and a
count of the `handleSubmit` invocations that have started. -/
structure TimerState where
  timeLeft : Nat
  timerActive : Bool
  inFlight : Bool
  submissions : Nat
  deriving DecidableEq

/-- Entry of `handleSubmit` (part_000 lines 200-203): the body has no
re-entrancy check — it unconditionally runs and sets `submitting`. -/
def handleSubmitStart (s : TimerState) : TimerState :=
  { s with submissions := s.submissions + 1, inFlight := true }

/-- One firing of the interval callback (part_000 lines 165-180):
`prev <= 1` clears the interval and calls `handleSubmit()`; the
callback never consults the `submitting` flag. -/
def timerTick (s : TimerState) : TimerState :=
  if s.timerActive then
    if s.timeLeft ≤ 1 then
      handleSubmitStart { s with timeLeft := 0, timerActive := false }
    else { s with timeLeft := s.timeLeft - 1 }
  else s

/-- A user click on the Submit button (part_000 lines 324-333): the
button is `disabled={submitting}`, so a click only lands while no
submission is in flight; the click does not cancel the interval. -/
def clickSubmit (s : TimerState) : TimerState :=
  if s.inFlight then s else handleSubmitStart s

/-- In-memory attempt state: the displayed question index and the
answer vector (part_001 initialises it to question-count copies of the
sentinel `-1`). -/
structure AttemptState where
  currentQuestion : Nat
  answers : List Int
  deriving DecidableEq

/-- `handleNext` of part_000 (lines 188-192). -/
def part000HandleNext (questionCount : Nat) (s : AttemptState) : AttemptState :=
  if s.currentQuestion < questionCount - 1 then
    { s with currentQuestion := s.currentQuestion + 1 }
  else s

/-- `handlePrevious` of part_000 (lines 194-198). -/
def part000HandlePrevious (s : AttemptState) : AttemptState :=
  if s.currentQuestion > 0 then
    { s with currentQuestion := s.currentQuestion - 1 }
  else s

/-- The part_001 Previous button (line 236): `Math.max(0, prev - 1)`. -/
def part001HandlePrevious (s : AttemptState) : AttemptState :=
  { s with currentQuestion := max 0 (s.currentQuestion - 1) }

/-- The part_001 Next button (line 243): `Math.min(length - 1, prev + 1)`. -/
def part001HandleNext (questionCount : Nat) (s : AttemptState) : AttemptState :=
  { s with currentQuestion := min (questionCount - 1) (s.currentQuestion + 1) }

/-- The part_001 jump-to-index buttons (lines 261-270). -/
def part001JumpTo (i : Nat) (s : AttemptState) : AttemptState :=
  { s with currentQuestion := i }

/-- `handleAnswer` of part_001 (lines 121-125): overwrite the given
question's slot in a copy of the vector. -/
def part001HandleAnswer (questionIndex : Nat) (answerIndex : Int)
    (s : AttemptState) : AttemptState :=
  { s with answers := s.answers.set questionIndex answerIndex }

/-- JS array element assignment `a[i] = v` on an array of numbers: an
in-range write overwrites the slot; a write at or past the length grows
the array, leaving holes before the new element.  Every read the pages
perform on a slot (`answers[index] === question.correct_answer` in the
scorer, `answers[currentQuestion] === index` in the render) treats a
hole (`undefined`) exactly like the unanswered sentinel `-1` — neither
ever equals an option index — so holes are modelled by `-1`. -/
def jsWriteGrow (l : List Int) (i : Nat) (v : Int) : List Int :=
  if i < l.length then l.set i v
  else l ++ List.replicate (i - l.length) (-1) ++ [v]

/-- `handleAnswer` of part_000 (lines 182-186): overwrite the slot of
the currently displayed question in a copy of the vector
(`newAnswers[currentQuestion] = answerIndex`).  part_000 initialises
`answers` to `[]` and never resizes it, so this write routinely lands
at or past the array's length and grows it. -/
def part000HandleAnswer (answerIndex : Int) (s : AttemptState) : AttemptState :=
  { s with answers := jsWriteGrow s.answers s.currentQuestion answerIndex }

/-- The base-36 digit alphabet used by the JS runtime for
`Number.prototype.toString(36)`. -/
def base36Digits : List Char := "0123456789abcdefghijklmnopqrstuvwxyz".toList

/-- The character of one base-36 digit. -/
def digitChar36 (d : Fin 36) : Char := base36Digits.getD d.val '0'

/-- Modelled JS runtime behaviour of `x.toString(36)` for a double
`x` in `[0, 1)` as produced by `Math.random()` (middleware.ts line
111): the value `0` renders as "0", and a positive value renders as
"0." followed by its finitely many base-36 fraction digits (the
shortest representation that round-trips; doubles are binary rationals,
so the digit list is finite).  Strings are modelled as char lists. -/
def toString36 (fracDigits : List (Fin 36)) : List Char :=
  match fracDigits with
  | [] => ['0']
  | ds => '0' :: '.' :: ds.map digitChar36

/-- JS `s.slice(-k)`: the last `min k (length s)` characters. -/
def sliceLast (s : List Char) (k : Nat) : List Char :=
  s.drop (s.length - k)

/-- `generatePassword` of middleware.ts (lines 110-112):
`Math.random().toString(36).slice(-8)`, with the random double given by
its base-36 fraction digits. -/
def generatePassword (fracDigits : List (Fin 36)) : List Char :=
  sliceLast (toString36 fracDigits) 8

/-- Characters the claim allows in a generated password: base-36 digits
and the decimal point. -/
def passwordChar (c : Char) : Prop :=
  ('0' ≤ c ∧ c ≤ '9') ∨ ('a' ≤ c ∧ c ≤ 'z') ∨ c = '.'

instance (c : Char) : Decidable (passwordChar c) := by
  unfold passwordChar; infer_instance

theorem computeScore_enum (qs : List Question) (answers : List Int) :
    computeScore qs answers
      = qs.enum.countP (fun p => decide (answers.getD p.1 (-1) = (p.2.correct_answer : Int))) := by
  unfold computeScore
  rw [scoreAux_eq_countP]
  rw [Nat.zero_add]
  rfl

/-- C1: the Scorer's computed score equals the number of indices `i` at
which `answers[i]` equals `questions[i].correct_answer`; a slot holding
the unanswered sentinel `-1` never counts as correct (the count is
unchanged when the predicate additionally requires the slot to be
non-sentinel), so the score is at most the question count. -/
theorem scorer_counts_indexwise_matches (qs : List Question) (answers : List Int) :
    computeScore qs answers
        = qs.enum.countP (fun p => decide (answers.getD p.1 (-1) = (p.2.correct_answer : Int)))
    ∧ computeScore qs answers
        = qs.enum.countP (fun p => decide (answers.getD p.1 (-1) ≠ -1
            ∧ answers.getD p.1 (-1) = (p.2.correct_answer : Int)))
    ∧ computeScore qs answers ≤ qs.length := by
  refine ⟨computeScore_enum qs answers, ?_, ?_⟩
  · rw [computeScore_enum]
    refine List.countP_congr ?_
    intro p _
    simp only [decide_eq_true_eq]
    constructor
    · intro h; exact ⟨by omega, h⟩
    · exact fun h => h.2
  · rw [computeScore_enum]
    calc qs.enum.countP _ ≤ qs.enum.length := List.countP_le_length _
    _ = qs.length := List.enum_length

/-- Two-question demo test content used for the scorer-keying claim. -/
def demoQuestions2 : List Question :=
  [{ id := 1, text := "q1", options := ["x", "y"], correct_answer := 1 },
   { id := 2, text := "q2", options := ["x", "y"], correct_answer := 0 }]

/-- Demo store for the scorer-keying claim: two students of one batch
share test 7, each with an open session (ids 11 and 12). -/
def demoDb2 : DataStore :=
  { tests := [{ id := 7, title := "T", duration_minutes := 30, is_active := true,
                start_time := none, end_time := none, batch_id := 1 }],
    students :=
      [{ id := 1, name := "A", email := "a@x", password := "pa",
         has_taken_test := false, batch_id := 1 },
       { id := 2, name := "B", email := "b@x", password := "pb",
         has_taken_test := false, batch_id := 1 }],
    sessions :=
      [{ id := 11, test_id := 7, student_id := 1, started_at := 0,
         completed_at := none, total_score := none, total_questions := none },
       { id := 12, test_id := 7, student_id := 2, started_at := 0,
         completed_at := none, total_score := none, total_questions := none }],
    nextSessionId := 13 }

/-- C2: evaluated at a store where two students share test 7, the
part_001 Scorer persistence — keyed by test id — closes BOTH open
sessions (student 2's included) and sets no student's
`has_taken_test` (no student id equals the test id), while the
part_000 persistence keyed by session id 11 and student id 1 updates
exactly that session and exactly that student. -/
theorem part001_scorer_keying_demo :
    ((part001SubmitScore demoDb2 5 7 demoQuestions2 [1, 0]).sessions.map
        SessionRow.completed_at = [some 5, some 5])
    ∧ ((part001SubmitScore demoDb2 5 7 demoQuestions2 [1, 0]).students.map
        StudentRow.has_taken_test = [false, false])
    ∧ ((part000SubmitScore demoDb2 5 11 1 demoQuestions2 [1, 0]).sessions.map
        SessionRow.completed_at = [some 5, none])
    ∧ ((part000SubmitScore demoDb2 5 11 1 demoQuestions2 [1, 0]).students.map
        StudentRow.has_taken_test = [true, false]) := by
  decide

/-- Demo session for the re-login claim: open (completed_at null)
session 5 of student 1 on test 7. -/
def demoSession3 : SessionRow :=
  { id := 5, test_id := 7, student_id := 1, started_at := 0,
    completed_at := none, total_score := none, total_questions := none }

/-- Demo store for the re-login claim: an active test, a student with
valid credentials, and the open session `demoSession3`. -/
def demoDb3 : DataStore :=
  { tests := [{ id := 7, title := "T", duration_minutes := 30, is_active := true,
                start_time := none, end_time := none, batch_id := 1 }],
    students := [{ id := 1, name := "S", email := "s@x", password := "pw",
                   has_taken_test := false, batch_id := 1 }],
    sessions := [demoSession3],
    nextSessionId := 6 }

/-- C3 counterexample: in the TestLogin.tsx variant, a student with
valid credentials and an existing open session is rejected with the
already-taken error instead of being handed that session's id — the
claimed idempotent re-login fails on this negotiator. -/
theorem testLogin_rejects_open_session :
    demoSession3.completed_at = none
    ∧ demoSession3 ∈ demoDb3.sessions
    ∧ demoSession3.test_id = 7
    ∧ demoSession3.student_id = 1
    ∧ testLoginNegotiator demoDb3 0 7 "s@x" "pw" = (.errAlreadyTaken, demoDb3)
    ∧ (LoginResult.errAlreadyTaken ≠ .ok demoSession3.id) := by
  decide

/-- C3 amended: in the [id].tsx Session Negotiator, a student with
valid credentials and an existing open session for (test_id,
student_id) gets exactly that session's id back, the store is
unchanged, and an immediate second login returns the same id (no
duplicate row); the TestLogin.tsx variant instead rejects with
AlreadyTaken whenever any session row for the pair exists, inserting
nothing. -/
theorem idPage_login_idempotent
    (db : DataStore) (now : Int) (testId : Nat) (email password : String)
    (student : StudentRow) (s0 : SessionRow)
    (hmount : idPageVerifyTest db now testId = none)
    (hstu : db.students.filter
        (fun s => s.email == email && s.password == password) = [student])
    (hflag : student.has_taken_test = false)
    (hsess : db.sessions.filter (fun ss =>
        ss.test_id == testId && ss.student_id == student.id
          && ss.completed_at.isNone) = [s0]) :
    idPageNegotiator db now testId email password = (.ok s0.id, db)
    ∧ idPageNegotiator (idPageNegotiator db now testId email password).2
        now testId email password = (.ok s0.id, db)
    ∧ ∀ t s1, db.tests.filter (fun x => x.id == testId) = [t] → t.is_active = true →
        db.sessions.filter (fun ss =>
            ss.test_id == testId && ss.student_id == student.id) = [s1] →
        testLoginHandleSubmit db now testId email password = (.errAlreadyTaken, db) := by
  have hfirst : idPageNegotiator db now testId email password = (.ok s0.id, db) := by
    unfold idPageNegotiator
    rw [hmount]
    unfold idPageHandleSubmit
    rw [hstu]
    simp [hflag, hsess]
  refine ⟨hfirst, ?_, ?_⟩
  · rw [hfirst]
    exact hfirst
  · intro t s1 ht hact hsess1
    unfold testLoginHandleSubmit
    rw [ht]
    simp [hact, hstu, hsess1]

/-- Witness for the amended C3 theorem at the demo store. -/
theorem idPage_login_idempotent_witness :
    idPageNegotiator demoDb3 0 7 "s@x" "pw" = (.ok demoSession3.id, demoDb3) :=
  (idPage_login_idempotent demoDb3 0 7 "s@x" "pw"
      { id := 1, name := "S", email := "s@x", password := "pw",
        has_taken_test := false, batch_id := 1 }
      demoSession3 (by decide) (by decide) (by decide) (by decide)).1

/-- Demo store for the already-taken claim: an active test and a
student whose row has `has_taken_test = true` but no session rows. -/
def demoDb4 : DataStore :=
  { tests := [{ id := 7, title := "T", duration_minutes := 30, is_active := true,
                start_time := none, end_time := none, batch_id := 1 }],
    students := [{ id := 3, name := "S", email := "t@x", password := "pw",
                   has_taken_test := true, batch_id := 1 }],
    sessions := [],
    nextSessionId := 20 }

/-- C4 counterexample: the TestLogin.tsx variant never reads
`has_taken_test` — a flagged student with matching credentials and no
session row logs in successfully and a NEW TestSession row is
inserted, contradicting the claimed AlreadyTaken failure. -/
theorem testLogin_ignores_taken_flag :
    ((demoDb4.students.map StudentRow.has_taken_test) = [true])
    ∧ testLoginNegotiator demoDb4 0 7 "t@x" "pw"
        = (.ok 20,
           { demoDb4 with
               sessions := [{ id := 20, test_id := 7, student_id := 3, started_at := 0,
                              completed_at := none, total_score := none,
                              total_questions := none }],
               nextSessionId := 21 })
    ∧ ((testLoginNegotiator demoDb4 0 7 "t@x" "pw").2.sessions.length
        = demoDb4.sessions.length + 1) := by
  decide

/-- C4 amended: in the [id].tsx submit handler a student row with
`has_taken_test = true` and matching credentials always yields
AlreadyTaken with the store untouched; the TestLogin.tsx handler does
not consult the flag — it yields AlreadyTaken exactly when some
session row for (test_id, student_id) exists, and otherwise inserts a
fresh session even for a flagged student. -/
theorem alreadyTaken_flag_check
    (db : DataStore) (now : Int) (testId : Nat) (email password : String)
    (student : StudentRow)
    (hstu : db.students.filter
        (fun s => s.email == email && s.password == password) = [student])
    (hflag : student.has_taken_test = true) :
    idPageHandleSubmit db now testId email password = (.errAlreadyTaken, db)
    ∧ (∀ t, db.tests.filter (fun x => x.id == testId) = [t] → t.is_active = true →
        (db.sessions.filter (fun ss =>
            ss.test_id == testId && ss.student_id == student.id) = [] →
          testLoginHandleSubmit db now testId email password
            = (.ok db.nextSessionId, (insertSession db now testId student.id).2))
        ∧ (∀ s1, db.sessions.filter (fun ss =>
              ss.test_id == testId && ss.student_id == student.id) = [s1] →
            testLoginHandleSubmit db now testId email password
              = (.errAlreadyTaken, db))) := by
  constructor
  · unfold idPageHandleSubmit
    rw [hstu]
    simp [hflag]
  · intro t ht hact
    constructor
    · intro hnone
      unfold testLoginHandleSubmit
      rw [ht]
      simp [hact, hstu, hnone, insertSession]
    · intro s1 hone
      unfold testLoginHandleSubmit
      rw [ht]
      simp [hact, hstu, hone]

/-- Witness for the amended C4 theorem at the demo store. -/
theorem alreadyTaken_flag_check_witness :
    idPageHandleSubmit demoDb4 0 7 "t@x" "pw" = (.errAlreadyTaken, demoDb4) :=
  (alreadyTaken_flag_check demoDb4 0 7 "t@x" "pw"
      { id := 3, name := "S", email := "t@x", password := "pw",
        has_taken_test := true, batch_id := 1 }
      (by decide) (by decide)).1

/-- Demo test for the time-window claim: active, `start_time = 10`,
`end_time` ABSENT. -/
def demoTest5 : TestRow :=
  { id := 7, title := "T", duration_minutes := 30, is_active := true,
    start_time := some 10, end_time := none, batch_id := 1 }

/-- Demo store for the time-window claim. -/
def demoDb5 : DataStore :=
  { tests := [demoTest5],
    students := [{ id := 1, name := "S", email := "s5@x", password := "pw",
                   has_taken_test := false, batch_id := 1 }],
    sessions := [],
    nextSessionId := 2 }

/-- C5 counterexample: at time 5, before the sole `start_time` bound of
a test whose `end_time` is ABSENT, the [id].tsx negotiator (and the
identical part_000 `fetchTest` check) fails with NotStarted — the
claimed "either bound absent means no time restriction" does not hold
there, while the TestLogin.tsx negotiator does let the same login
proceed and returns a session. -/
theorem verifyTest_checks_lone_start_bound :
    demoTest5.end_time = none
    ∧ idPageNegotiator demoDb5 5 7 "s5@x" "pw" = (.errNotStarted, demoDb5)
    ∧ testLoginNegotiator demoDb5 5 7 "s5@x" "pw"
        = (.ok 2,
           { demoDb5 with
               sessions := [{ id := 2, test_id := 7, student_id := 1, started_at := 5,
                              completed_at := none, total_score := none,
                              total_questions := none }],
               nextSessionId := 3 }) := by
  decide

/-- C5 amended: when BOTH bounds are present the two time checks agree —
NotStarted before `start_time`, Ended after `end_time`, pass inside the
window; the TestLogin.tsx check applies no restriction whenever either
bound is absent; the [id].tsx / part_000 check instead tests each bound
independently, so a lone future `start_time` still yields NotStarted
and a lone past `end_time` still yields Ended. -/
theorem time_window_variants (t : TestRow) (now : Int) :
    (∀ s e, t.start_time = some s → t.end_time = some e →
        fetchTestInfoTimeCheck t now
          = (if now < s then some .errNotStarted
             else if now > e then some .errEnded else none)
        ∧ verifyTestTimeCheck t now
          = (if now < s then some .errNotStarted
             else if now > e then some .errEnded else none))
    ∧ ((t.start_time = none ∨ t.end_time = none) → fetchTestInfoTimeCheck t now = none)
    ∧ (∀ s, t.start_time = some s → t.end_time = none →
        verifyTestTimeCheck t now = (if now < s then some .errNotStarted else none))
    ∧ (∀ e, t.end_time = some e → t.start_time = none →
        verifyTestTimeCheck t now = (if e < now then some .errEnded else none)) := by
  refine ⟨?_, ?_, ?_, ?_⟩
  · intro s e hs he
    constructor
    · simp [fetchTestInfoTimeCheck, hs, he]
    · simp only [verifyTestTimeCheck, startNotReached, endPassed, hs, he]
      rcases lt_or_le now s with h1 | h1
      · simp [h1, show s > now from h1]
      · rcases lt_or_le e now with h2 | h2
        · simp [h2, show ¬(s > now) from not_lt.mpr h1, not_lt.mpr h1, h2,
            show e < now from h2]
        · simp [show ¬(s > now) from not_lt.mpr h1, show ¬(e < now) from not_lt.mpr h2]
  · rintro (h | h) <;> simp [fetchTestInfoTimeCheck, h]
  · intro s hs he
    simp only [verifyTestTimeCheck, startNotReached, endPassed, hs, he]
    rcases lt_or_le now s with h1 | h1
    · simp [show s > now from h1, h1]
    · simp [show ¬(s > now) from not_lt.mpr h1, not_lt.mpr h1]
  · intro e he hs
    simp only [verifyTestTimeCheck, startNotReached, endPassed, hs, he]
    rcases lt_or_le e now with h2 | h2
    · simp [h2]
    · simp [show ¬(e < now) from not_lt.mpr h2]

/-- Witness for the amended C5 theorem: a concrete test with both
bounds present, evaluated strictly inside the window. -/
theorem time_window_variants_witness :
    fetchTestInfoTimeCheck
        { id := 1, title := "W", duration_minutes := 5, is_active := true,
          start_time := some 10, end_time := some 20, batch_id := 1 } 15 = none
    ∧ verifyTestTimeCheck
        { id := 1, title := "W", duration_minutes := 5, is_active := true,
          start_time := some 10, end_time := some 20, batch_id := 1 } 15 = none := by
  have h := (time_window_variants
      { id := 1, title := "W", duration_minutes := 5, is_active := true,
        start_time := some 10, end_time := some 20, batch_id := 1 } 15).1
      10 20 rfl rfl
  refine ⟨?_, ?_⟩
  · rw [h.1]; decide
  · rw [h.2]; decide

/-- Demo test for the entry-verification claim. -/
def demoTest6 : TestRow :=
  { id := 7, title := "T", duration_minutes := 30, is_active := true,
    start_time := none, end_time := none, batch_id := 1 }

/-- Demo store for the entry-verification claim: test 7 present, NO
TestSession rows at all. -/
def demoDb6 : DataStore :=
  { tests := [demoTest6], students := [], sessions := [], nextSessionId := 1 }

/-- C6 counterexample: the part_001 attempt page loads the test content
for a store that contains no TestSession row whatsoever — no stored
(sessionId, studentId, testId) triple is consulted (its `fetchTest`
does not even take one), so a visitor with no valid session still gets
the test, contradicting the claimed mandatory re-verification; the
part_000 entry check on the same store redirects instead. -/
theorem part001_entry_skips_verification :
    demoDb6.sessions = []
    ∧ part001FetchTest demoDb6 7 = some demoTest6
    ∧ part000VerifySession
        { sessionId := some 1, studentId := some 1,
          studentName := some "S", testId := some 7 } 7 demoDb6
        = .redirectClear := by
  decide

/-- C6 amended: the part_000 entry check re-verifies the stored triple —
an incomplete triple or a stored test id different from the URL's
redirects to re-login but KEEPS the stored fields; with a complete
matching triple, the absence of a `test_sessions` row matching all
three ids with `completed_at` null clears the fields and redirects,
and a unique matching row lets the attempt proceed under the stored
session id.  The part_001 entry performs no such verification: its
content loading reads only the tests table, unaffected by session rows
or stored state. -/
theorem attempt_entry_verification
    (stored : StoredRef) (urlTestId : Nat) (db : DataStore) :
    ((stored.sessionId = none ∨ stored.studentId = none
        ∨ stored.testId ≠ some urlTestId) →
      part000VerifySession stored urlTestId db = .redirectKeep)
    ∧ (∀ sid stId, stored.sessionId = some sid → stored.studentId = some stId →
        stored.testId = some urlTestId →
        (db.sessions.filter (fun s =>
            s.id == sid && s.student_id == stId && s.test_id == urlTestId
              && s.completed_at.isNone) = [] →
          part000VerifySession stored urlTestId db = .redirectClear)
        ∧ (∀ srow, db.sessions.filter (fun s =>
            s.id == sid && s.student_id == stId && s.test_id == urlTestId
              && s.completed_at.isNone) = [srow] →
          part000VerifySession stored urlTestId db = .proceed sid))
    ∧ (∀ db2 : DataStore, db.tests = db2.tests →
        part001FetchTest db urlTestId = part001FetchTest db2 urlTestId) := by
  refine ⟨?_, ?_, ?_⟩
  · intro h
    unfold part000VerifySession
    rcases hsid : stored.sessionId with _ | sid
    · simp
    · rcases hstid : stored.studentId with _ | stId
      · simp
      · rcases h with h | h | h
        · rw [hsid] at h; cases h
        · rw [hstid] at h; cases h
        · simp [h]
  · intro sid stId hsid hstid htid
    constructor
    · intro hempty
      unfold part000VerifySession
      rw [hsid, hstid, htid]
      simp [hempty]
    · intro srow hone
      unfold part000VerifySession
      rw [hsid, hstid, htid]
      simp [hone]
  · intro db2 htests
    unfold part001FetchTest
    rw [htests]

/-- Witness for the amended C6 theorem: a matching stored triple whose
unique open session row lets the attempt proceed. -/
theorem attempt_entry_verification_witness :
    part000VerifySession
        { sessionId := some 5, studentId := some 1,
          studentName := some "S", testId := some 7 } 7
        { tests := [], students := [],
          sessions := [{ id := 5, test_id := 7, student_id := 1, started_at := 0,
                         completed_at := none, total_score := none,
                         total_questions := none }],
          nextSessionId := 6 }
      = .proceed 5 :=
  ((attempt_entry_verification
      { sessionId := some 5, studentId := some 1,
        studentName := some "S", testId := some 7 } 7
      { tests := [], students := [],
        sessions := [{ id := 5, test_id := 7, student_id := 1, started_at := 0,
                       completed_at := none, total_score := none,
                       total_questions := none }],
        nextSessionId := 6 }).2.1 5 1 rfl rfl rfl).2
    { id := 5, test_id := 7, student_id := 1, started_at := 0,
      completed_at := none, total_score := none, total_questions := none }
    (by decide)

/-- C7: for any store whose test row for the given id has
`is_active = false`, both Session Negotiators fail with Inactive and
return the store unchanged — no TestSession row is inserted. -/
theorem inactive_test_login
    (db : DataStore) (now : Int) (testId : Nat) (email password : String)
    (t : TestRow)
    (ht : db.tests.filter (fun x => x.id == testId) = [t])
    (hinact : t.is_active = false) :
    idPageNegotiator db now testId email password = (.errInactive, db)
    ∧ testLoginNegotiator db now testId email password = (.errInactive, db) := by
  constructor
  · unfold idPageNegotiator idPageVerifyTest
    rw [ht]
    simp [hinact]
  · unfold testLoginNegotiator testLoginFetchTestInfo
    rw [ht]
    simp [hinact]

/-- Demo store for the inactive-test claim. -/
def demoDb7 : DataStore :=
  { tests := [{ id := 9, title := "T", duration_minutes := 30, is_active := false,
                start_time := none, end_time := none, batch_id := 1 }],
    students := [{ id := 1, name := "S", email := "x@y", password := "pw",
                   has_taken_test := false, batch_id := 1 }],
    sessions := [],
    nextSessionId := 3 }

/-- Witness for the inactive-test theorem at the demo store. -/
theorem inactive_test_login_witness :
    idPageNegotiator demoDb7 0 9 "x@y" "pw" = (.errInactive, demoDb7)
    ∧ testLoginNegotiator demoDb7 0 9 "x@y" "pw" = (.errInactive, demoDb7) :=
  inactive_test_login demoDb7 0 9 "x@y" "pw"
    { id := 9, title := "T", duration_minutes := 30, is_active := false,
      start_time := none, end_time := none, batch_id := 1 }
    (by decide) rfl

/-- Timer state one second before expiry: interval scheduled, no
submission started yet. -/
def timerRace0 : TimerState :=
  { timeLeft := 1, timerActive := true, inFlight := false, submissions := 0 }

/-- C8: from one second left, a user click on Submit starts a
submission WITHOUT cancelling the interval (the click handler never
clears it), and the already-scheduled tick that then reaches zero
starts a second submission — `handleSubmit` has no re-entrancy check
and the interval callback never consults the `submitting` flag, so two
Scorer invocations occur where the claim allows exactly one. -/
theorem timer_click_double_submission :
    (clickSubmit timerRace0).submissions = 1
    ∧ (clickSubmit timerRace0).inFlight = true
    ∧ (clickSubmit timerRace0).timerActive = true
    ∧ (timerTick (clickSubmit timerRace0)).submissions = 2 := by
  decide

theorem getD_set_self (l : List Int) (i : Nat) (a d : Int) (h : i < l.length) :
    (l.set i a).getD i d = a := by
  simp [List.getD_eq_getElem?_getD, List.getElem?_set_self, h]

theorem getD_set_other (l : List Int) (i j : Nat) (a d : Int) (h : j ≠ i) :
    (l.set i a).getD j d = l.getD j d := by
  simp [List.getD_eq_getElem?_getD, List.getElem?_set_ne (Ne.symm h)]

theorem jsWriteGrow_getElem? (l : List Int) (i : Nat) (v : Int) (j : Nat) :
    (jsWriteGrow l i v)[j]?
      = if j = i then some v
        else if j < l.length then l[j]?
        else if j < i then some (-1) else none := by
  unfold jsWriteGrow
  split
  · rename_i hi
    rw [List.getElem?_set]
    by_cases hji : j = i
    · subst hji; simp [hi]
    · have hij : ¬ (i = j) := fun h2 => hji h2.symm
      simp only [if_neg hij, if_neg hji]
      by_cases hjl : j < l.length
      · simp [hjl]
      · have hlt : ¬ (j < i) := by omega
        simp [hjl, hlt, List.getElem?_eq_none (le_of_not_lt hjl)]
  · rename_i hi
    have hlen : (l ++ List.replicate (i - l.length) (-1)).length = i := by
      simp only [List.length_append, List.length_replicate]
      omega
    by_cases hji : j = i
    · subst hji
      rw [List.getElem?_append_right (le_of_eq hlen), hlen]
      simp
    · simp only [if_neg hji]
      by_cases hjl : j < l.length
      · rw [List.getElem?_append_left (by omega : j < (l ++ List.replicate (i - l.length) (-1)).length),
          List.getElem?_append_left hjl]
        simp [hjl]
      · by_cases hjlt : j < i
        · rw [List.getElem?_append_left (by omega : j < (l ++ List.replicate (i - l.length) (-1)).length),
            List.getElem?_append_right (le_of_not_lt hjl), List.getElem?_replicate]
          simp only [if_neg hjl]
          have : j - l.length < i - l.length := by omega
          simp [hjlt, this]
        · have htot : ((l ++ List.replicate (i - l.length) (-1)) ++ [v]).length ≤ j := by
            rw [List.length_append, hlen, List.length_singleton]
            omega
          rw [List.getElem?_eq_none htot]
          simp [hjl, hjlt]

theorem jsWriteGrow_getD_self (l : List Int) (i : Nat) (v : Int) :
    (jsWriteGrow l i v).getD i (-1) = v := by
  rw [List.getD_eq_getElem?_getD, jsWriteGrow_getElem?]
  simp

theorem jsWriteGrow_getD_other (l : List Int) (i j : Nat) (v : Int) (h : j ≠ i) :
    (jsWriteGrow l i v).getD j (-1) = l.getD j (-1) := by
  rw [List.getD_eq_getElem?_getD, List.getD_eq_getElem?_getD, jsWriteGrow_getElem?]
  by_cases hjl : j < l.length
  · simp [h, hjl]
  · rw [List.getElem?_eq_none (le_of_not_lt hjl)]
    by_cases hjlt : j < i <;> simp [h, hjl, hjlt]

theorem jsWriteGrow_length (l : List Int) (i : Nat) (v : Int) :
    (jsWriteGrow l i v).length = max l.length (i + 1) := by
  unfold jsWriteGrow
  split
  · rw [List.length_set]; omega
  · simp only [List.length_append, List.length_replicate, List.length_singleton]
    omega

theorem jsWriteGrow_twice (l : List Int) (i : Nat) (a1 a2 : Int) :
    jsWriteGrow (jsWriteGrow l i a1) i a2 = jsWriteGrow l i a2 := by
  apply List.ext_getElem?
  intro j
  rw [jsWriteGrow_getElem?, jsWriteGrow_getElem?, jsWriteGrow_getElem?, jsWriteGrow_length]
  by_cases hji : j = i
  · simp [hji]
  · simp only [if_neg hji]
    by_cases hjl : j < l.length
    · have h1 : j < max l.length (i + 1) := by omega
      simp [h1, hjl]
    · by_cases hjlt : j < i
      · have h1 : j < max l.length (i + 1) := by omega
        simp [h1, hjl, hjlt]
      · have h1 : ¬ (j < max l.length (i + 1)) := by omega
        simp [h1, hjlt, hjl]

/-- C9: none of the navigation handlers of either attempt page —
next/previous in part_000, the clamped next/previous and the
jump-to-index buttons in part_001 — changes the stored answer vector;
only the answer handlers overwrite the selected question's slot,
leaving every other slot unchanged (in part_000 the sentinel-read of
every slot other than the written one is preserved even when the write
grows the initially empty array), and of two successive selections for
the same question the last one wins (in both variants). -/
theorem navigation_preserves_answers
    (n : Nat) (s : AttemptState) (q j : Nat) (a a1 a2 : Int) :
    (part000HandleNext n s).answers = s.answers
    ∧ (part000HandlePrevious s).answers = s.answers
    ∧ (part001HandleNext n s).answers = s.answers
    ∧ (part001HandlePrevious s).answers = s.answers
    ∧ (part001JumpTo j s).answers = s.answers
    ∧ (q < s.answers.length → (part001HandleAnswer q a s).answers.getD q 0 = a)
    ∧ (j ≠ q → (part001HandleAnswer q a s).answers.getD j 0 = s.answers.getD j 0)
    ∧ part001HandleAnswer q a2 (part001HandleAnswer q a1 s) = part001HandleAnswer q a2 s
    ∧ part000HandleAnswer a2 (part000HandleAnswer a1 s) = part000HandleAnswer a2 s
    ∧ (part000HandleAnswer a s).answers.getD s.currentQuestion (-1) = a
    ∧ (∀ j2, j2 ≠ s.currentQuestion →
        (part000HandleAnswer a s).answers.getD j2 (-1) = s.answers.getD j2 (-1)) := by
  refine ⟨?_, ?_, ?_, ?_, ?_, ?_, ?_, ?_, ?_, ?_, ?_⟩
  · unfold part000HandleNext
    split <;> rfl
  · unfold part000HandlePrevious
    split <;> rfl
  · rfl
  · rfl
  · rfl
  · intro h
    exact getD_set_self s.answers q a 0 h
  · intro h
    exact getD_set_other s.answers q j a 0 h
  · unfold part001HandleAnswer
    simp [List.set_set]
  · unfold part000HandleAnswer
    simp [jsWriteGrow_twice]
  · exact jsWriteGrow_getD_self s.answers s.currentQuestion a
  · intro j2 h
    exact jsWriteGrow_getD_other s.answers s.currentQuestion j2 a h

/-- Witness for the navigation/answer theorem at a concrete
three-question part_001 state and at part_000's real initial state
(question 0 displayed, empty answer array): the first selection is
recorded even though the write grows the empty array, and the read of
a different slot is unchanged. -/
theorem navigation_preserves_answers_witness :
    ((part001HandleAnswer 1 5 { currentQuestion := 1, answers := [-1, -1, -1] }).answers.getD 1 0 = 5)
    ∧ ((part001HandleAnswer 1 5 { currentQuestion := 1, answers := [-1, -1, -1] }).answers.getD 0 0
        = ([-1, -1, -1] : List Int).getD 0 0)
    ∧ ((part000HandleAnswer 2 { currentQuestion := 0, answers := [] }).answers.getD 0 (-1) = 2)
    ∧ ((part000HandleAnswer 2 { currentQuestion := 0, answers := [] }).answers.getD 1 (-1)
        = ([] : List Int).getD 1 (-1)) :=
  ⟨(navigation_preserves_answers 3 { currentQuestion := 1, answers := [-1, -1, -1] }
      1 0 5 0 5).2.2.2.2.2.1 (by decide),
   (navigation_preserves_answers 3 { currentQuestion := 1, answers := [-1, -1, -1] }
      1 0 5 0 5).2.2.2.2.2.2.1 (by decide),
   (navigation_preserves_answers 3 { currentQuestion := 0, answers := [] }
      0 1 2 0 2).2.2.2.2.2.2.2.2.2.1,
   (navigation_preserves_answers 3 { currentQuestion := 0, answers := [] }
      0 1 2 0 2).2.2.2.2.2.2.2.2.2.2 1 (by decide)⟩

theorem digitChar36_passwordChar (d : Fin 36) : passwordChar (digitChar36 d) := by
  fin_cases d <;> decide

/-- C10: every password produced by `generatePassword` (used by both
manual student creation and the bulk CSV import) is non-empty, at most
8 characters long, and drawn from the base-36 digits plus possibly the
decimal point; and some outputs of the random source (the value 0, or
any double with few base-36 fraction digits) give a password strictly
shorter than 8 characters. -/
theorem generatePassword_shape :
    (∀ fracDigits : List (Fin 36),
      generatePassword fracDigits ≠ []
      ∧ (generatePassword fracDigits).length ≤ 8
      ∧ (∀ c ∈ generatePassword fracDigits, passwordChar c))
    ∧ (∃ fracDigits : List (Fin 36), (generatePassword fracDigits).length < 8) := by
  constructor
  · intro fracDigits
    have hlen : 1 ≤ (toString36 fracDigits).length := by
      unfold toString36
      match fracDigits with
      | [] => simp
      | d :: ds => simp
    have hdroplen : (generatePassword fracDigits).length
        = (toString36 fracDigits).length - ((toString36 fracDigits).length - 8) := by
      unfold generatePassword sliceLast
      exact List.length_drop _ _
    refine ⟨?_, ?_, ?_⟩
    · intro hnil
      rw [hnil] at hdroplen
      simp at hdroplen
      omega
    · omega
    · intro c hc
      have hc2 : c ∈ toString36 fracDigits := List.drop_subset _ _ hc
      unfold toString36 at hc2
      match fracDigits with
      | [] =>
          simp at hc2
          subst hc2
          decide
      | d :: ds =>
          simp only [List.mem_cons, List.mem_map] at hc2
          rcases hc2 with h | h | ⟨d2, _, h2⟩
          · subst h; decide
          · subst h; decide
          · rw [← h2]
            exact digitChar36_passwordChar d2
  · exact ⟨[], by decide⟩

/-- Witness for the password-shape theorem at a concrete single-digit
random value (0.a in base 36, i.e. 10/36). -/
theorem generatePassword_shape_witness :
    generatePassword [(10 : Fin 36)] ≠ []
    ∧ passwordChar '.' :=
  ⟨(generatePassword_shape.1 [(10 : Fin 36)]).1,
   (generatePassword_shape.1 [(10 : Fin 36)]).2.2 '.' (by decide)⟩
